import Mathlib

/-!
# win32_engine.cpp: offscreen buffer, gradient renderer and frame loop

A shallow embedding of `src/win32_engine.cpp`.

* C `int` / `LONG` values are mathematical integers; a C arithmetic operation
  whose result can leave the range of `int` is followed by `wrapInt32` (two's
  complement, 32 bit). Loop counters stay below a bound that is an `int`.
* Pixel memory is a list of bytes, addressed by the byte offset from
  `buffer->memory`; a 32-bit store is little endian.
* Constants and structs of the Windows SDK headers the source includes
  (`windows.h`, `xinput.h`) are not declared in the repository; they are given
  here with the values and fields of the SDK.
* The Win32 services the program calls (allocator, message queue, XInput,
  window size) are inputs of the model, and every call the program makes is
  appended to a trace.
-/

namespace Win32Engine

/-! ## Machine integers -/

/-- Result of a C `int` operation: the mathematical result reduced to the
32-bit two's complement range. -/
def wrapInt32 (v : Int) : Int := (v + 2147483648) % 4294967296 - 2147483648

/-- The values a C `int` can hold. -/
def isInt32 (v : Int) : Prop := -2147483648 ≤ v ∧ v ≤ 2147483647

instance (v : Int) : Decidable (isInt32 v) := by unfold isInt32; infer_instance

/-- Conversion of an `int` to `uint8_t`. -/
def toUInt8 (v : Int) : Nat := (v % 256).toNat

/-- Conversion of an `int` to `uint32_t`. -/
def toUInt32 (v : Int) : Nat := (v % 4294967296).toNat

/-! ## Data model -/

/-- The fields of `BITMAPINFOHEADER` that `Win32ResizeDIBSection` assigns. -/
structure BITMAPINFOHEADER where
  biSize : Nat
  biWidth : Int
  biHeight : Int
  biPlanes : Nat
  biBitCount : Nat
  biCompression : Nat
deriving DecidableEq

/-- The `BITMAPINFO` member of the buffer. -/
structure BITMAPINFO where
  bmiHeader : BITMAPINFOHEADER
deriving DecidableEq

/-- The struct `win32_offscreen_buffer`. `memory` is a pointer: `0` is null. -/
structure win32_offscreen_buffer where
  info : BITMAPINFO
  memory : Nat
  width : Int
  height : Int
  pitch : Int
  bytesPerPixel : Int
deriving DecidableEq

/-- The struct `win32_window_dimensions`. -/
structure win32_window_dimensions where
  width : Int
  height : Int
deriving DecidableEq

/-- A global of static storage duration starts zero-initialised. -/
def zeroBuffer : win32_offscreen_buffer :=
  { info := { bmiHeader := { biSize := 0, biWidth := 0, biHeight := 0, biPlanes := 0,
                             biBitCount := 0, biCompression := 0 } },
    memory := 0, width := 0, height := 0, pitch := 0, bytesPerPixel := 0 }

/-! ## Pixel memory -/

/-- The bytes of the region `buffer->memory` points to. -/
abbrev Memory := List Nat

/-- Little-endian store of the `uint32_t` value `v` at byte offset `addr`. A store
outside the region leaves the region as it is. -/
def store32 (m : Memory) (addr : Int) (v : Nat) : Memory :=
  if addr < 0 then m
  else
    (((m.set addr.toNat (v % 256)).set (addr.toNat + 1) (v / 256 % 256)).set
      (addr.toNat + 2) (v / 65536 % 256)).set (addr.toNat + 3) (v / 16777216 % 256)

/-- Little-endian load of a 32-bit value at byte offset `addr`. -/
def load32 (m : Memory) (addr : Nat) : Nat :=
  m.getD addr 0 + 256 * m.getD (addr + 1) 0 + 65536 * m.getD (addr + 2) 0
    + 16777216 * m.getD (addr + 3) 0

/-! ## Win32RenderGradient -/

/-- The value stored for the pixel in column `x`, row `y`:
`uint8_t blue = (x + xOffset); uint8_t green = (y + yOffset);`
`((green << 8) | blue)` converted to `uint32_t`. -/
def gradientPixel (xOffset yOffset x y : Int) : Nat :=
  let blue := toUInt8 (wrapInt32 (x + xOffset))
  let green := toUInt8 (wrapInt32 (y + yOffset))
  toUInt32 (((green <<< 8) ||| blue : Nat) : Int)

/-- The inner loop `for(int x = ...; x < buffer->width; ++x) *pixel++ = ...`,
entered at column `x` with `pixel` at byte offset `pixel`. -/
def renderRow (buffer : win32_offscreen_buffer) (xOffset yOffset y : Int) :
    Nat → Int → Int → Memory → Memory
  | 0, _, _, m => m
  | fuel + 1, x, pixel, m =>
    if x < buffer.width then
      renderRow buffer xOffset yOffset y fuel (x + 1) (pixel + 4)
        (store32 m pixel (gradientPixel xOffset yOffset x y))
    else m

/-- The outer loop `for(int y = ...; y < buffer->height; ++y)`, entered at row
`y` with `row` at byte offset `row`; it ends with `row += buffer->pitch`. -/
def renderRows (buffer : win32_offscreen_buffer) (xOffset yOffset : Int) :
    Nat → Int → Int → Memory → Memory
  | 0, _, _, m => m
  | fuel + 1, y, row, m =>
    if y < buffer.height then
      renderRows buffer xOffset yOffset fuel (y + 1) (row + buffer.pitch)
        (renderRow buffer xOffset yOffset y buffer.width.toNat 0 row m)
    else m

/-- The function `Win32RenderGradient`, as a transformer of the pixel region. The
loops run `height` and `width` times, which is the fuel they are given. -/
def Win32RenderGradient (buffer : win32_offscreen_buffer) (xOffset yOffset : Int)
    (m : Memory) : Memory :=
  renderRows buffer xOffset yOffset buffer.height.toNat 0 0 m

/-- Byte `k` (0 is the lowest) of a 32-bit value. -/
def byteOf (v k : Nat) : Nat := v / 256 ^ k % 256

/-- The bytes the gradient formula gives for a region of `height * pitch` bytes:
byte `i` belongs to row `i / pitch`, column `(i % pitch) / 4`, and is byte `i % 4`
of that pixel. -/
def gradientBytes (buffer : win32_offscreen_buffer) (xOffset yOffset : Int) : Memory :=
  (List.range (buffer.height * buffer.pitch).toNat).map fun i =>
    byteOf (gradientPixel xOffset yOffset
      (((i % buffer.pitch.toNat) / 4 : Nat) : Int) ((i / buffer.pitch.toNat : Nat) : Int)) (i % 4)

/-! ## The allocator and Win32ResizeDIBSection -/

/-- A call the program makes to the allocator. -/
inductive AllocEvent where
  | release (p : Nat)
  | request (size : Int) (result : Nat)
deriving DecidableEq

/-- Model of the Win32 virtual-memory allocator: the regions that are live, the
next unused address, and the calls received so far. -/
structure Allocator where
  live : List Nat
  next : Nat
  log : List AllocEvent
deriving DecidableEq

/-- The allocator before the program has called it. -/
def Allocator.init : Allocator := { live := [], next := 1, log := [] }

/-- The call `VirtualFree(p, 0, MEM_RELEASE)`: region `p` stops being live. -/
def VirtualFree (a : Allocator) (p : Nat) : Allocator :=
  { a with live := a.live.erase p, log := a.log ++ [AllocEvent.release p] }

/-- The call `VirtualAlloc(0, size, MEM_COMMIT, PAGE_READWRITE)`: when the allocator
grants the request it returns a fresh region, otherwise null (`0`). -/
def VirtualAlloc (a : Allocator) (size : Int) (grant : Bool) : Nat × Allocator :=
  if grant then
    (a.next, { live := a.next :: a.live, next := a.next + 1,
               log := a.log ++ [AllocEvent.request size a.next] })
  else
    (0, { a with log := a.log ++ [AllocEvent.request size 0] })

/-- The Windows SDK constant `BI_RGB`. -/
def BI_RGB : Nat := 0

/-- The value of `sizeof(BITMAPINFOHEADER)`. -/
def sizeofBITMAPINFOHEADER : Nat := 40

/-- The function `Win32ResizeDIBSection`; `grant` is the allocator's answer to the
one request the call makes. -/
def Win32ResizeDIBSection (buffer : win32_offscreen_buffer) (width height : Int)
    (a : Allocator) (grant : Bool) : win32_offscreen_buffer × Allocator :=
  let a1 := if buffer.memory ≠ 0 then VirtualFree a buffer.memory else a
  let bytesPerPixel : Int := 4
  let header : BITMAPINFOHEADER :=
    { buffer.info.bmiHeader with
      biSize := sizeofBITMAPINFOHEADER
      biWidth := width
      biHeight := wrapInt32 (-height)
      biPlanes := 1
      biBitCount := 32
      biCompression := BI_RGB }
  let bitmapMemSize := wrapInt32 (wrapInt32 (width * height) * bytesPerPixel)
  let pitch := wrapInt32 (width * bytesPerPixel)
  let r := VirtualAlloc a1 bitmapMemSize grant
  ({ info := { bmiHeader := header }, memory := r.1, width := width, height := height,
     pitch := pitch, bytesPerPixel := bytesPerPixel }, r.2)

/-- One call of `Win32ResizeDIBSection` together with the allocator's answer. -/
structure ResizeCall where
  width : Int
  height : Int
  grant : Bool
deriving DecidableEq

/-- A sequence of `Win32ResizeDIBSection` calls on the same buffer. -/
def resizeRun : List ResizeCall → win32_offscreen_buffer × Allocator →
    win32_offscreen_buffer × Allocator
  | [], s => s
  | c :: cs, s => resizeRun cs (Win32ResizeDIBSection s.1 c.width c.height s.2 c.grant)

/-- The regions released in a log, in order. -/
def released : List AllocEvent → List Nat
  | [] => []
  | AllocEvent.release p :: es => p :: released es
  | AllocEvent.request _ _ :: es => released es

/-! ## Win32DisplayBufferInWindow -/

/-- The Windows SDK constant `DIB_RGB_COLORS`. -/
def DIB_RGB_COLORS : Nat := 0

/-- The Windows SDK constant `SRCCOPY`. -/
def SRCCOPY : Nat := 0x00CC0020

/-- The arguments of one `StretchDIBits` call. -/
structure StretchDIBitsCall where
  hdc : Nat
  xDest : Int
  yDest : Int
  destWidth : Int
  destHeight : Int
  xSrc : Int
  ySrc : Int
  srcWidth : Int
  srcHeight : Int
  bits : Nat
  bitsInfo : BITMAPINFO
  usage : Nat
  rop : Nat
deriving DecidableEq

/-- The function `Win32DisplayBufferInWindow`: the `StretchDIBits` call it makes. -/
def Win32DisplayBufferInWindow (buffer : win32_offscreen_buffer) (deviceContext : Nat)
    (windowWidth windowHeight : Int) : StretchDIBitsCall :=
  { hdc := deviceContext,
    xDest := 0, yDest := 0, destWidth := windowWidth, destHeight := windowHeight,
    xSrc := 0, ySrc := 0, srcWidth := buffer.width, srcHeight := buffer.height,
    bits := buffer.memory, bitsInfo := buffer.info, usage := DIB_RGB_COLORS, rop := SRCCOPY }

/-! ## XInput -/

/-- The Windows SDK constant `ERROR_SUCCESS`. -/
def ERROR_SUCCESS : Nat := 0

/-- The Windows SDK constant `ERROR_DEVICE_NOT_CONNECTED`. -/
def ERROR_DEVICE_NOT_CONNECTED : Nat := 1167

/-- The Windows SDK constant `XUSER_MAX_COUNT`. -/
def XUSER_MAX_COUNT : Nat := 4

/-- The Windows SDK constant `XINPUT_GAMEPAD_A`. -/
def XINPUT_GAMEPAD_A : Nat := 0x1000

/-- The struct `XINPUT_GAMEPAD`. -/
structure XINPUT_GAMEPAD where
  wButtons : Nat
  bLeftTrigger : Nat
  bRightTrigger : Nat
  sThumbLX : Int
  sThumbLY : Int
  sThumbRX : Int
  sThumbRY : Int
deriving DecidableEq

/-- The struct `XINPUT_STATE`. -/
structure XINPUT_STATE where
  dwPacketNumber : Nat
  Gamepad : XINPUT_GAMEPAD
deriving DecidableEq

/-- The struct `XINPUT_VIBRATION`. -/
structure XINPUT_VIBRATION where
  wLeftMotorSpeed : Nat
  wRightMotorSpeed : Nat
deriving DecidableEq

/-- The type `x_input_get_state`: from `dwUserIndex` and the contents of `*pState`
at the call to the returned code and the contents of `*pState` at the return. -/
abbrev x_input_get_state := Nat → XINPUT_STATE → Nat × XINPUT_STATE

/-- The type `x_input_set_state`: from `dwUserIndex` and `*pVibration` to the
returned code. -/
abbrev x_input_set_state := Nat → XINPUT_VIBRATION → Nat

/-- The function `XInputGetStateStub`: `return(0);`, `*pState` is not written. -/
def XInputGetStateStub : x_input_get_state := fun _ pState => (0, pState)

/-- The function `XInputSetStateStub`: `return(0);`. -/
def XInputSetStateStub : x_input_set_state := fun _ _ => 0

/-- What the pointers `XInputGetState_` and `XInputSetState_` point to. -/
inductive XInputBinding where
  | stub
  | library
deriving DecidableEq

/-- The function `Win32LoadXInput`: the pointers are redirected to the library when
`LoadLibraryA` finds it, and keep pointing to the stubs otherwise. -/
def Win32LoadXInput (libraryFound : Bool) : XInputBinding :=
  if libraryFound then XInputBinding.library else XInputBinding.stub

/-! ## Window messages -/

/-- The Windows SDK constant `WM_DESTROY`. -/
def WM_DESTROY : Nat := 0x0002
/-- The Windows SDK constant `WM_PAINT`. -/
def WM_PAINT : Nat := 0x000F
/-- The Windows SDK constant `WM_CLOSE`. -/
def WM_CLOSE : Nat := 0x0010
/-- The Windows SDK constant `WM_QUIT`. -/
def WM_QUIT : Nat := 0x0012
/-- The Windows SDK constant `WM_ACTIVATEAPP`. -/
def WM_ACTIVATEAPP : Nat := 0x001C
/-- The Windows SDK constant `WM_KEYDOWN`. -/
def WM_KEYDOWN : Nat := 0x0100
/-- The Windows SDK constant `WM_KEYUP`. -/
def WM_KEYUP : Nat := 0x0101
/-- The Windows SDK constant `WM_SYSKEYDOWN`. -/
def WM_SYSKEYDOWN : Nat := 0x0104
/-- The Windows SDK constant `WM_SYSKEYUP`. -/
def WM_SYSKEYUP : Nat := 0x0105

/-- The fields of `MSG` the program and `DispatchMessageA` read. `hwnd` is the window
the message is for; it is null (`0`) for a message posted to the thread, such as
`WM_QUIT`. -/
structure MSG where
  hwnd : Nat
  message : Nat
  wParam : Nat
  lParam : Nat
deriving DecidableEq

/-- The struct `RECT`. -/
structure RECT where
  left : Int
  top : Int
  right : Int
  bottom : Int
deriving DecidableEq

/-- The function `Win32GetWindowDimension`, given the rectangle `GetClientRect`
reports. -/
def Win32GetWindowDimension (clientRect : RECT) : win32_window_dimensions :=
  { width := wrapInt32 (clientRect.right - clientRect.left),
    height := wrapInt32 (clientRect.bottom - clientRect.top) }

/-- The two strings passed to `OutputDebugStringA`. -/
inductive DebugText where
  | activateApp
  | exitingProgram
deriving DecidableEq

/-- What the program does that is visible from outside: the Win32 calls it makes,
its calls of `Win32RenderGradient`, and its stores to `globalRunning`. -/
inductive Action where
  | outputDebugString (text : DebugText)
  | registerClass (ok : Bool)
  | createWindow (ok : Bool)
  | setRunning (value : Bool)
  | translateMessage (msg : MSG)
  | dispatchMessage (msg : MSG)
  | defWindowProc (hwnd uMsg wParam lParam : Nat)
  | getState (index : Nat) (result : Nat)
  | setState (index : Nat) (vibration : XINPUT_VIBRATION) (result : Nat)
  | render (buffer : win32_offscreen_buffer) (xOffset yOffset : Int)
  | stretchDIBits (call : StretchDIBitsCall)
deriving DecidableEq

/-- The globals of the program, the allocator, and the trace. `faulted` is set when
the program has stored through a null pointer, which ends the process. -/
structure ProgramState where
  globalRunning : Bool
  globalBackBuffer : win32_offscreen_buffer
  xinput : XInputBinding
  allocator : Allocator
  deviceContext : Nat
  faulted : Bool
  trace : List Action
deriving DecidableEq

/-- Appends actions to the trace. -/
def ProgramState.emit (s : ProgramState) (actions : List Action) : ProgramState :=
  { s with trace := s.trace ++ actions }

/-- The function `Win32MainWindowCallback` (its `LRESULT` is not used by the
program). `clientRect` is what `GetClientRect` reports during the call. The key
messages compute `wasDown` and `isDown`, and every branch on the key is empty. -/
def Win32MainWindowCallback (s : ProgramState) (hwnd uMsg wParam lParam : Nat)
    (clientRect : RECT) : ProgramState :=
  if uMsg = WM_CLOSE then
    { s with globalRunning := false }.emit [Action.setRunning false]
  else if uMsg = WM_ACTIVATEAPP then
    s.emit [Action.outputDebugString DebugText.activateApp]
  else if uMsg = WM_DESTROY then
    { s with globalRunning := false }.emit [Action.setRunning false]
  else if uMsg = WM_SYSKEYDOWN ∨ uMsg = WM_SYSKEYUP ∨ uMsg = WM_KEYDOWN ∨ uMsg = WM_KEYUP then
    s
  else if uMsg = WM_PAINT then
    let dimensions := Win32GetWindowDimension clientRect
    s.emit [Action.stretchDIBits
      (Win32DisplayBufferInWindow s.globalBackBuffer s.deviceContext
        dimensions.width dimensions.height)]
  else
    s.emit [Action.defWindowProc hwnd uMsg wParam lParam]

/-- A message waiting in the queue, with the client rectangle the window has when
the message is handled. -/
structure PendingMessage where
  msg : MSG
  clientRect : RECT
deriving DecidableEq

/-- The call `DispatchMessageA(&message)`: the message is handed to the window
procedure of its window, `Win32MainWindowCallback`; a message without a window is
handed to no procedure. -/
def DispatchMessageA (s : ProgramState) (p : PendingMessage) : ProgramState :=
  let s1 := s.emit [Action.dispatchMessage p.msg]
  if p.msg.hwnd = 0 then s1
  else Win32MainWindowCallback s1 p.msg.hwnd p.msg.message p.msg.wParam p.msg.lParam p.clientRect

/-- The loop `while(PeekMessage(&message, 0, 0, 0, PM_REMOVE))` over the messages that
are pending: each is removed, tested for `WM_QUIT`, translated and dispatched. -/
def drainMessages : List PendingMessage → ProgramState → ProgramState
  | [], s => s
  | p :: ps, s =>
    let s1 :=
      if p.msg.message = WM_QUIT then
        { s with globalRunning := false }.emit [Action.setRunning false]
      else s
    let s2 := s1.emit [Action.translateMessage p.msg]
    drainMessages ps (DispatchMessageA s2 p)

/-- What one iteration of the frame loop receives from outside. -/
structure FrameInput where
  /-- The messages in the queue when the drain starts. -/
  pending : List PendingMessage
  /-- The behaviour of the library's `XInputGetState` during this iteration. -/
  libraryGetState : x_input_get_state
  /-- The behaviour of the library's `XInputSetState` during this iteration. -/
  librarySetState : x_input_set_state
  /-- The contents of the uninitialised local `cntrlState` when a slot is polled. -/
  uninitialised : Nat → XINPUT_STATE
  /-- What `GetClientRect` reports after the render. -/
  clientRect : RECT

/-- The call `XInputGetState(...)` through the pointer. -/
def XInputGetState (binding : XInputBinding) (f : FrameInput) : x_input_get_state :=
  match binding with
  | XInputBinding.stub => XInputGetStateStub
  | XInputBinding.library => f.libraryGetState

/-- The call `XInputSetState(...)` through the pointer. -/
def XInputSetState (binding : XInputBinding) (f : FrameInput) : x_input_set_state :=
  match binding with
  | XInputBinding.stub => XInputSetStateStub
  | XInputBinding.library => f.librarySetState

/-- The body of the gamepad loop for one `cntrlIndex`. The test of the code returned
by `XInputGetState` has an empty body; the buttons are read from `cntrlState` after
it, whatever the code. -/
def pollController (f : FrameInput) (cntrlIndex : Nat) (s : ProgramState) : ProgramState :=
  let r := XInputGetState s.xinput f cntrlIndex (f.uninitialised cntrlIndex)
  let s1 := s.emit [Action.getState cntrlIndex r.1]
  let s2 := if r.1 ≠ ERROR_SUCCESS then s1 else s1
  let cntrlState := r.2
  let aButton : Bool := decide (cntrlState.Gamepad.wButtons &&& XINPUT_GAMEPAD_A ≠ 0)
  if aButton then
    let vibe : XINPUT_VIBRATION := { wLeftMotorSpeed := 60000, wRightMotorSpeed := 60000 }
    s2.emit [Action.setState cntrlIndex vibe (XInputSetState s.xinput f cntrlIndex vibe)]
  else s2

/-- The loop `for(DWORD cntrlIndex = ...; cntrlIndex < XUSER_MAX_COUNT; ++cntrlIndex)`,
entered at `cntrlIndex`. -/
def pollGamepads (f : FrameInput) : Nat → Nat → ProgramState → ProgramState
  | 0, _, s => s
  | fuel + 1, cntrlIndex, s =>
    if cntrlIndex < XUSER_MAX_COUNT then
      pollGamepads f fuel (cntrlIndex + 1) (pollController f cntrlIndex s)
    else s

/-- The first store of `Win32RenderGradient` goes through `buffer->memory`; it is
reached when the buffer has a row and a column. -/
def storesThroughNull (buffer : win32_offscreen_buffer) : Bool :=
  decide (buffer.memory = 0 ∧ 0 < buffer.height ∧ 0 < buffer.width)

/-- One iteration of `while(globalRunning)`: drain, poll, render, present. The contents
of the pixel region do not influence the control flow: the call of
`Win32RenderGradient` is recorded in the trace and its effect on the region is the
function `Win32RenderGradient`. -/
def frameIteration (f : FrameInput) (xOffset yOffset : Int) (s : ProgramState) :
    ProgramState :=
  let s1 := drainMessages f.pending s
  let s2 := pollGamepads f XUSER_MAX_COUNT 0 s1
  let s3 := s2.emit [Action.render s2.globalBackBuffer xOffset yOffset]
  if storesThroughNull s3.globalBackBuffer then
    { s3 with faulted := true }
  else
    let dimensions := Win32GetWindowDimension f.clientRect
    s3.emit [Action.stretchDIBits
      (Win32DisplayBufferInWindow s3.globalBackBuffer s3.deviceContext
        dimensions.width dimensions.height)]

/-- The loop `while(globalRunning)`, observed for as many iterations as there are
frame inputs. `xOffset` and `yOffset` are the locals of `WinMain`; the loop body does
not assign them. -/
def mainLoop (xOffset yOffset : Int) : List FrameInput → ProgramState → ProgramState
  | [], s => s
  | f :: fs, s =>
    if s.globalRunning = true ∧ s.faulted = false then
      mainLoop xOffset yOffset fs (frameIteration f xOffset yOffset s)
    else s

/-! ## WinMain -/

/-- What the startup of `WinMain` receives from outside; `deviceContext` is the
device context of the window (one for the whole run, the class has `CS_OWNDC`). -/
structure StartupInput where
  libraryFound : Bool
  allocationGranted : Bool
  registerClassOk : Bool
  createWindowOk : Bool
  deviceContext : Nat
deriving DecidableEq

/-- The label `Cleanup:` — the debug string, then `return(0)`. -/
def cleanup (s : ProgramState) : Option Int × ProgramState :=
  (some 0, s.emit [Action.outputDebugString DebugText.exitingProgram])

/-- The function `WinMain`, observed for the given frames. The first component is the
value returned; it is `none` when the process has not returned: it faulted, or the
loop is still running after the last observed frame. -/
def WinMain (input : StartupInput) (frames : List FrameInput) : Option Int × ProgramState :=
  let binding := Win32LoadXInput input.libraryFound
  let r := Win32ResizeDIBSection zeroBuffer 1280 720 Allocator.init input.allocationGranted
  let s0 : ProgramState :=
    { globalRunning := false, globalBackBuffer := r.1, xinput := binding, allocator := r.2,
      deviceContext := input.deviceContext, faulted := false, trace := [] }
  let s1 := s0.emit [Action.registerClass input.registerClassOk]
  if input.registerClassOk = false then cleanup s1
  else
    let s2 := s1.emit [Action.createWindow input.createWindowOk]
    if input.createWindowOk = false then cleanup s2
    else
      let xOffset : Int := 0
      let yOffset : Int := 0
      let s3 := { s2 with globalRunning := true }.emit [Action.setRunning true]
      let s4 := mainLoop xOffset yOffset frames s3
      if s4.faulted = true ∨ s4.globalRunning = true then (none, s4) else cleanup s4

/-! ## Observations of a trace -/

/-- The messages that stop the loop: `WM_QUIT` seen by the loop, `WM_CLOSE` and
`WM_DESTROY` dispatched to the window procedure. -/
def isCloseEvent (msg : MSG) : Bool :=
  decide (msg.message = WM_QUIT ∨
    (msg.hwnd ≠ 0 ∧ (msg.message = WM_CLOSE ∨ msg.message = WM_DESTROY)))

/-- The messages dispatched in a trace, in order. -/
def dispatchedOf (trace : List Action) : List MSG :=
  trace.filterMap fun a =>
    match a with
    | Action.dispatchMessage m => some m
    | _ => none

/-- The offsets of the `Win32RenderGradient` calls in a trace, in order. -/
def renderOffsetsOf (trace : List Action) : List (Int × Int) :=
  trace.filterMap fun a =>
    match a with
    | Action.render _ x y => some (x, y)
    | _ => none

/-- The slots polled in a trace with the code each poll returned, in order. -/
def polledOf (trace : List Action) : List (Nat × Nat) :=
  trace.filterMap fun a =>
    match a with
    | Action.getState i r => some (i, r)
    | _ => none

/-- The slots that received a vibration command in a trace, in order. -/
def vibratedOf (trace : List Action) : List Nat :=
  trace.filterMap fun a =>
    match a with
    | Action.setState i _ _ => some i
    | _ => none

/-- The number of stores of `true` to `globalRunning` in a trace. -/
def startsOf (trace : List Action) : Nat :=
  trace.count (Action.setRunning true)

/-! ## Inputs of the worked examples -/

/-- An `XINPUT_STATE` of zero bytes. -/
def zeroState : XINPUT_STATE :=
  { dwPacketNumber := 0,
    Gamepad := { wButtons := 0, bLeftTrigger := 0, bRightTrigger := 0, sThumbLX := 0,
                 sThumbLY := 0, sThumbRX := 0, sThumbRY := 0 } }

/-- An `XINPUT_STATE` whose only set bit is the A button. -/
def aPressedState : XINPUT_STATE :=
  { zeroState with Gamepad := { zeroState.Gamepad with wButtons := XINPUT_GAMEPAD_A } }

/-- A startup in which everything succeeds and no XInput library is found. -/
def startupOk : StartupInput :=
  { libraryFound := false, allocationGranted := true, registerClassOk := true,
    createWindowOk := true, deviceContext := 7 }

/-- A frame with an empty message queue and zeroed controller storage. -/
def idleFrame : FrameInput :=
  { pending := [],
    libraryGetState := fun _ st => (ERROR_DEVICE_NOT_CONNECTED, st),
    librarySetState := fun _ _ => ERROR_DEVICE_NOT_CONNECTED,
    uninitialised := fun _ => zeroState,
    clientRect := { left := 0, top := 0, right := 800, bottom := 600 } }

/-- A startup in which only the allocation of the back buffer is refused. -/
def allocationRefused : StartupInput := { startupOk with allocationGranted := false }

/-- A startup in which everything succeeds and the XInput library is found. -/
def startupWithLibrary : StartupInput := { startupOk with libraryFound := true }

/-- A frame in which slot 0 holds a controller with the A button down and the slots 1
to 3 hold none: for them the library returns `ERROR_DEVICE_NOT_CONNECTED` and writes
no state, and the storage of `cntrlState` still holds what the poll of slot 0 left. -/
def staleFrame : FrameInput :=
  { idleFrame with
    libraryGetState := fun i st =>
      if i = 0 then (ERROR_SUCCESS, aPressedState) else (ERROR_DEVICE_NOT_CONNECTED, st),
    uninitialised := fun i => if i = 0 then zeroState else aPressedState }

/-- A frame whose queue holds a paint, a close and, after it, an activation. -/
def closeFrame : FrameInput :=
  { idleFrame with
    pending :=
      [ { msg := { hwnd := 1, message := WM_PAINT, wParam := 0, lParam := 0 },
          clientRect := { left := 0, top := 0, right := 640, bottom := 480 } },
        { msg := { hwnd := 1, message := WM_CLOSE, wParam := 0, lParam := 0 },
          clientRect := { left := 0, top := 0, right := 640, bottom := 480 } },
        { msg := { hwnd := 1, message := WM_ACTIVATEAPP, wParam := 0, lParam := 0 },
          clientRect := { left := 0, top := 0, right := 640, bottom := 480 } } ] }

/-- The state in which `WinMain` enters the loop after a startup without failure. -/
def runningState : ProgramState :=
  { globalRunning := true,
    globalBackBuffer := (Win32ResizeDIBSection zeroBuffer 1280 720 Allocator.init true).1,
    xinput := XInputBinding.stub,
    allocator := (Win32ResizeDIBSection zeroBuffer 1280 720 Allocator.init true).2,
    deviceContext := 7, faulted := false,
    trace := [Action.registerClass true, Action.createWindow true, Action.setRunning true] }

/-- Whether the A button is set in the state `cntrlState` holds after slot `i` was
polled. -/
def aButtonAfterPoll (binding : XInputBinding) (f : FrameInput) (i : Nat) : Bool :=
  decide ((XInputGetState binding f i (f.uninitialised i)).2.Gamepad.wButtons
    &&& XINPUT_GAMEPAD_A ≠ 0)

/-- The 4 by 4 buffer of the worked example. -/
def buffer4x4 : win32_offscreen_buffer :=
  { zeroBuffer with memory := 1, width := 4, height := 4, pitch := 16, bytesPerPixel := 4 }

/-! ## Invariant of the resizes -/

/-- The invariant of the buffer and the allocator: the live regions are exactly the
buffer memory, and the released regions are distinct, old and not the buffer memory. -/
def ResizeInv (s : win32_offscreen_buffer × Allocator) : Prop :=
  s.2.live = (if s.1.memory ≠ 0 then [s.1.memory] else []) ∧
  s.1.memory < s.2.next ∧
  (released s.2.log).Nodup ∧
  ∀ p ∈ released s.2.log, 0 < p ∧ p < s.2.next ∧ p ≠ s.1.memory

/-! ## Lemmas on stores -/

theorem wrapInt32_of_isInt32 {v : Int} (h : isInt32 v) : wrapInt32 v = v := by
  unfold isInt32 at h
  unfold wrapInt32
  omega

theorem toUInt8_wrapInt32 (v : Int) : toUInt8 (wrapInt32 v) = toUInt8 v := by
  unfold toUInt8 wrapInt32
  omega

theorem toUInt8_lt (v : Int) : toUInt8 v < 256 := by
  unfold toUInt8
  omega

theorem gradientPixel_eq (xOffset yOffset x y : Int) :
    gradientPixel xOffset yOffset x y
      = toUInt8 (y + yOffset) * 256 + toUInt8 (x + xOffset) := by
  unfold gradientPixel
  simp only [toUInt8_wrapInt32]
  have hb := toUInt8_lt (x + xOffset)
  have hg := toUInt8_lt (y + yOffset)
  have hor : toUInt8 (y + yOffset) <<< 8 ||| toUInt8 (x + xOffset)
      = toUInt8 (y + yOffset) * 256 + toUInt8 (x + xOffset) := by
    have hlt : toUInt8 (x + xOffset) < 2 ^ 8 := by simpa using hb
    rw [Nat.shiftLeft_eq, Nat.mul_comm, ← Nat.mul_add_lt_is_or hlt]
  rw [hor]
  unfold toUInt32
  omega

theorem store32_length (m : Memory) (addr : Int) (v : Nat) :
    (store32 m addr v).length = m.length := by
  unfold store32
  split <;> simp

theorem store32_getD_other (m : Memory) (a : Nat) (v i : Nat)
    (h : i < a ∨ a + 4 ≤ i) : (store32 m (a : Int) v).getD i 0 = m.getD i 0 := by
  unfold store32
  have hneg : ¬ ((a : Int) < 0) := by omega
  simp only [hneg, if_false, Int.toNat_ofNat, List.getD_eq_getElem?_getD, List.getElem?_set]
  have h0 : a ≠ i := by omega
  have h1 : a + 1 ≠ i := by omega
  have h2 : a + 2 ≠ i := by omega
  have h3 : a + 3 ≠ i := by omega
  simp [h0, h1, h2, h3]

theorem store32_getD_byte (m : Memory) (a : Nat) (v k : Nat)
    (hk : k < 4) (hlen : a + 4 ≤ m.length) :
    (store32 m (a : Int) v).getD (a + k) 0 = byteOf v k := by
  unfold store32
  have hneg : ¬ ((a : Int) < 0) := by omega
  simp only [hneg, if_false, Int.toNat_ofNat, List.getD_eq_getElem?_getD, List.getElem?_set,
    List.length_set]
  have hk4 : k = 0 ∨ k = 1 ∨ k = 2 ∨ k = 3 := by omega
  rcases hk4 with rfl | rfl | rfl | rfl
  · have : a < m.length := by omega
    simp [byteOf, this]
  · have : a + 1 < m.length := by omega
    simp [byteOf, this]
  · have : a + 2 < m.length := by omega
    simp [byteOf, this]
  · have : a + 3 < m.length := by omega
    simp [byteOf, this]

/-! ## The loops of Win32RenderGradient -/

theorem renderRow_spec (b : win32_offscreen_buffer) (xo yo y : Int) (wn : Nat)
    (hw : b.width = (wn : Int)) (base : Nat) :
    ∀ (fuel xn : Nat) (m : Memory), fuel + xn = wn → base + 4 * wn ≤ m.length →
      (renderRow b xo yo y fuel (xn : Int) ((base + 4 * xn : Nat) : Int) m).length = m.length ∧
      (∀ i, (i < base + 4 * xn ∨ base + 4 * wn ≤ i) →
        (renderRow b xo yo y fuel (xn : Int) ((base + 4 * xn : Nat) : Int) m).getD i 0
          = m.getD i 0) ∧
      (∀ x k : Nat, xn ≤ x → x < wn → k < 4 →
        (renderRow b xo yo y fuel (xn : Int) ((base + 4 * xn : Nat) : Int) m).getD
            (base + 4 * x + k) 0
          = byteOf (gradientPixel xo yo (x : Int) y) k) := by
  intro fuel
  induction fuel with
  | zero =>
    intro xn m hf _
    refine ⟨rfl, fun _ _ => rfl, ?_⟩
    intro x k h1 h2 _
    omega
  | succ fuel ih =>
    intro xn m hf hlen
    have hlt : (xn : Int) < b.width := by rw [hw]; omega
    have hx : (xn : Int) + 1 = ((xn + 1 : Nat) : Int) := by push_cast; ring
    have hp : ((base + 4 * xn : Nat) : Int) + 4 = ((base + 4 * (xn + 1) : Nat) : Int) := by
      push_cast; ring
    have hstep : renderRow b xo yo y (fuel + 1) (xn : Int) ((base + 4 * xn : Nat) : Int) m
        = renderRow b xo yo y fuel ((xn + 1 : Nat) : Int) ((base + 4 * (xn + 1) : Nat) : Int)
            (store32 m ((base + 4 * xn : Nat) : Int) (gradientPixel xo yo (xn : Int) y)) := by
      rw [renderRow, if_pos hlt, hx, hp]
    rw [hstep]
    have hlen' : base + 4 * wn
        ≤ (store32 m ((base + 4 * xn : Nat) : Int) (gradientPixel xo yo (xn : Int) y)).length := by
      rw [store32_length]; exact hlen
    obtain ⟨h1, h2, h3⟩ := ih (xn + 1)
      (store32 m ((base + 4 * xn : Nat) : Int) (gradientPixel xo yo (xn : Int) y))
      (by omega) hlen'
    refine ⟨by rw [h1, store32_length], ?_, ?_⟩
    · intro i hi
      rw [h2 i (by omega)]
      exact store32_getD_other m (base + 4 * xn) _ i (by omega)
    · intro x k hx1 hx2 hk
      by_cases hxe : x = xn
      · subst hxe
        rw [h2 (base + 4 * x + k) (by omega)]
        exact store32_getD_byte m (base + 4 * x) _ k hk (by omega)
      · exact h3 x k (by omega) hx2 hk

theorem renderRows_spec (b : win32_offscreen_buffer) (xo yo : Int) (wn hn : Nat)
    (hw : b.width = (wn : Int)) (hh : b.height = (hn : Int))
    (hp : b.pitch = ((4 * wn : Nat) : Int)) :
    ∀ (fuel yn : Nat) (m : Memory), fuel + yn = hn → hn * (4 * wn) ≤ m.length →
      (renderRows b xo yo fuel (yn : Int) ((yn * (4 * wn) : Nat) : Int) m).length = m.length ∧
      (∀ i, i < yn * (4 * wn) →
        (renderRows b xo yo fuel (yn : Int) ((yn * (4 * wn) : Nat) : Int) m).getD i 0
          = m.getD i 0) ∧
      (∀ y x k : Nat, yn ≤ y → y < hn → x < wn → k < 4 →
        (renderRows b xo yo fuel (yn : Int) ((yn * (4 * wn) : Nat) : Int) m).getD
            (y * (4 * wn) + 4 * x + k) 0
          = byteOf (gradientPixel xo yo (x : Int) (y : Int)) k) := by
  intro fuel
  induction fuel with
  | zero =>
    intro yn m hf _
    refine ⟨rfl, fun _ _ => rfl, ?_⟩
    intro y x k h1 h2 _ _
    omega
  | succ fuel ih =>
    intro yn m hf hlen
    have hlt : (yn : Int) < b.height := by rw [hh]; omega
    have hy : (yn : Int) + 1 = ((yn + 1 : Nat) : Int) := by push_cast; ring
    have hr : ((yn * (4 * wn) : Nat) : Int) + b.pitch
        = (((yn + 1) * (4 * wn) : Nat) : Int) := by
      rw [hp]; push_cast; ring
    have hsucc : (yn + 1) * (4 * wn) = yn * (4 * wn) + 4 * wn := Nat.succ_mul _ _
    have hrow_le : (yn + 1) * (4 * wn) ≤ hn * (4 * wn) :=
      Nat.mul_le_mul_right _ (by omega)
    obtain ⟨r1, r2, r3⟩ := renderRow_spec b xo yo (yn : Int) wn hw (yn * (4 * wn)) wn 0 m
      (by omega) (by omega)
    have hbase : ((yn * (4 * wn) + 4 * 0 : Nat) : Int) = ((yn * (4 * wn) : Nat) : Int) := by
      simp
    rw [hbase] at r1 r2 r3
    have hwn : b.width.toNat = wn := by rw [hw]; simp
    have hstep : renderRows b xo yo (fuel + 1) (yn : Int) ((yn * (4 * wn) : Nat) : Int) m
        = renderRows b xo yo fuel ((yn + 1 : Nat) : Int) (((yn + 1) * (4 * wn) : Nat) : Int)
            (renderRow b xo yo (yn : Int) wn ((0 : Nat) : Int)
              ((yn * (4 * wn) : Nat) : Int) m) := by
      rw [renderRows, if_pos hlt, hy, hr, hwn]
      rfl
    rw [hstep]
    obtain ⟨h1, h2, h3⟩ := ih (yn + 1)
      (renderRow b xo yo (yn : Int) wn ((0 : Nat) : Int) ((yn * (4 * wn) : Nat) : Int) m)
      (by omega) (by rw [r1]; exact hlen)
    refine ⟨by rw [h1, r1], ?_, ?_⟩
    · intro i hi
      rw [h2 i (by omega)]
      exact r2 i (by omega)
    · intro y x k hy1 hy2 hx hk
      by_cases hye : y = yn
      · subst hye
        rw [h2 (y * (4 * wn) + 4 * x + k) (by omega)]
        exact r3 x k (by omega) hx hk
      · exact h3 y x k (by omega) hy2 hx hk

/-- Every byte of a rendered region of `height * pitch` bytes with
`pitch = width * 4` is given by the gradient formula. -/
theorem render_bytes (b : win32_offscreen_buffer) (xo yo : Int) (wn hn : Nat)
    (hw : b.width = (wn : Int)) (hh : b.height = (hn : Int))
    (hp : b.pitch = ((4 * wn : Nat) : Int)) (m : Memory) (hlen : m.length = hn * (4 * wn)) :
    (Win32RenderGradient b xo yo m).length = m.length ∧
    (∀ y x k : Nat, y < hn → x < wn → k < 4 →
      (Win32RenderGradient b xo yo m).getD (y * (4 * wn) + 4 * x + k) 0
        = byteOf (gradientPixel xo yo (x : Int) (y : Int)) k) := by
  have hhn : b.height.toNat = hn := by rw [hh]; simp
  obtain ⟨h1, _, h3⟩ := renderRows_spec b xo yo wn hn hw hh hp hn 0 m (by omega) (by omega)
  have h0 : ((0 * (4 * wn) : Nat) : Int) = 0 := by simp
  rw [h0] at h1 h3
  unfold Win32RenderGradient
  rw [hhn]
  exact ⟨h1, fun y x k hy hx hk => h3 y x k (by omega) hy hx hk⟩

theorem render_eq_gradientBytes (b : win32_offscreen_buffer) (xo yo : Int) (m : Memory)
    (hw : 0 ≤ b.width) (hh : 0 ≤ b.height) (hp : b.pitch = b.width * 4)
    (hlen : (m.length : Int) = b.height * b.pitch) :
    Win32RenderGradient b xo yo m = gradientBytes b xo yo := by
  obtain ⟨wn, hwn⟩ := Int.eq_ofNat_of_zero_le hw
  obtain ⟨hn, hhn⟩ := Int.eq_ofNat_of_zero_le hh
  have hpn : b.pitch = ((4 * wn : Nat) : Int) := by rw [hp, hwn]; push_cast; ring
  have hprod : b.height * b.pitch = ((hn * (4 * wn) : Nat) : Int) := by
    rw [hpn, hhn]; push_cast; ring
  have hlenN : m.length = hn * (4 * wn) := by
    rw [hprod] at hlen; exact_mod_cast hlen
  obtain ⟨r1, r2⟩ := render_bytes b xo yo wn hn hwn hhn hpn m hlenN
  have hpitchN : b.pitch.toNat = 4 * wn := by rw [hpn]; exact Int.toNat_ofNat _
  have hglen : (gradientBytes b xo yo).length = hn * (4 * wn) := by
    unfold gradientBytes
    rw [List.length_map, List.length_range, hprod]
    exact Int.toNat_ofNat _
  apply List.ext_getElem (by rw [r1, hlenN, hglen])
  intro i h1 h2
  rw [← List.getD_eq_getElem _ 0 h1]
  have hi : i < hn * (4 * wn) := by rw [hglen] at h2; exact h2
  have hP : 0 < 4 * wn := by
    rcases Nat.eq_zero_or_pos (4 * wn) with h0 | h0
    · rw [h0] at hi; simp at hi
    · exact h0
  have hy : i / (4 * wn) < hn := Nat.div_lt_of_lt_mul (by rw [Nat.mul_comm]; exact hi)
  have hmodlt : i % (4 * wn) < 4 * wn := Nat.mod_lt _ hP
  have hx : i % (4 * wn) / 4 < wn := by omega
  have hk : i % 4 < 4 := by omega
  have hmm : i % (4 * wn) % 4 = i % 4 := Nat.mod_mod_of_dvd i (Dvd.intro wn rfl)
  have hdm : 4 * wn * (i / (4 * wn)) + i % (4 * wn) = i := Nat.div_add_mod i (4 * wn)
  have hcomm : 4 * wn * (i / (4 * wn)) = i / (4 * wn) * (4 * wn) := Nat.mul_comm _ _
  have hdecomp : i = i / (4 * wn) * (4 * wn) + 4 * (i % (4 * wn) / 4) + i % 4 := by omega
  have hbyte := r2 (i / (4 * wn)) (i % (4 * wn) / 4) (i % 4) hy hx hk
  rw [← hdecomp] at hbyte
  rw [hbyte]
  simp [gradientBytes, hpitchN]

theorem byteOf_sum (v : Nat) (hv : v < 4294967296) :
    byteOf v 0 + 256 * byteOf v 1 + 65536 * byteOf v 2 + 16777216 * byteOf v 3 = v := by
  unfold byteOf
  norm_num
  omega

theorem gradientPixel_of_noOverflow (xo yo x y : Int) (hx : isInt32 (x + xo))
    (hy : isInt32 (y + yo)) :
    gradientPixel xo yo x y = ((y + yo) % 256).toNat * 256 + ((x + xo) % 256).toNat := by
  have h := gradientPixel_eq xo yo x y
  rw [← wrapInt32_of_isInt32 hx, ← wrapInt32_of_isInt32 hy] at h
  rw [h, toUInt8_wrapInt32, toUInt8_wrapInt32]
  rfl

/-- C1: on a buffer with `width ≥ 0`, `height ≥ 0`, `pitch = width * 4` and a region of
`height * pitch` bytes, after `Win32RenderGradient` the pixel at column `x`, row `y`
(byte offset `y * pitch + x * 4`) has low byte `(x + xOffset) mod 256`, next byte
`(y + yOffset) mod 256`, and its 32-bit value is
`((y + yOffset) mod 256) * 256 + ((x + xOffset) mod 256)`. -/
theorem render_pixel_formula (b : win32_offscreen_buffer) (xOffset yOffset : Int)
    (m : Memory) (x y : Int)
    (hw : 0 ≤ b.width) (hh : 0 ≤ b.height) (hp : b.pitch = b.width * 4)
    (hlen : (m.length : Int) = b.height * b.pitch)
    (hx0 : 0 ≤ x) (hx : x < b.width) (hy0 : 0 ≤ y) (hy : y < b.height)
    (hxo : isInt32 (x + xOffset)) (hyo : isInt32 (y + yOffset)) :
    (Win32RenderGradient b xOffset yOffset m).getD (y * b.pitch + x * 4).toNat 0
        = ((x + xOffset) % 256).toNat ∧
    (Win32RenderGradient b xOffset yOffset m).getD ((y * b.pitch + x * 4).toNat + 1) 0
        = ((y + yOffset) % 256).toNat ∧
    load32 (Win32RenderGradient b xOffset yOffset m) (y * b.pitch + x * 4).toNat
        = ((y + yOffset) % 256).toNat * 256 + ((x + xOffset) % 256).toNat := by
  obtain ⟨wn, hwn⟩ := Int.eq_ofNat_of_zero_le hw
  obtain ⟨hn, hhn⟩ := Int.eq_ofNat_of_zero_le hh
  obtain ⟨xn, hxn⟩ := Int.eq_ofNat_of_zero_le hx0
  obtain ⟨yn, hyn⟩ := Int.eq_ofNat_of_zero_le hy0
  have hpn : b.pitch = ((4 * wn : Nat) : Int) := by rw [hp, hwn]; push_cast; ring
  have hlenN : m.length = hn * (4 * wn) := by
    have : b.height * b.pitch = ((hn * (4 * wn) : Nat) : Int) := by
      rw [hpn, hhn]; push_cast; ring
    rw [this] at hlen; exact_mod_cast hlen
  obtain ⟨_, r2⟩ := render_bytes b xOffset yOffset wn hn hwn hhn hpn m hlenN
  have hxw : xn < wn := by rw [hxn, hwn] at hx; exact_mod_cast hx
  have hyh : yn < hn := by rw [hyn, hhn] at hy; exact_mod_cast hy
  have haddr : (y * b.pitch + x * 4).toNat = yn * (4 * wn) + 4 * xn := by
    have : y * b.pitch + x * 4 = ((yn * (4 * wn) + 4 * xn : Nat) : Int) := by
      rw [hpn, hxn, hyn]; push_cast; ring
    rw [this]; exact Int.toNat_ofNat _
  have hv := gradientPixel_of_noOverflow xOffset yOffset x y hxo hyo
  have hb0 := r2 yn xn 0 hyh hxw (by omega)
  have hb1 := r2 yn xn 1 hyh hxw (by omega)
  have hb2 := r2 yn xn 2 hyh hxw (by omega)
  have hb3 := r2 yn xn 3 hyh hxw (by omega)
  rw [← hxn, ← hyn] at hb0 hb1 hb2 hb3
  have hlo : ((x + xOffset) % 256).toNat < 256 := by omega
  have hhi : ((y + yOffset) % 256).toNat < 256 := by omega
  have hsum := byteOf_sum (gradientPixel xOffset yOffset x y) (by rw [hv]; omega)
  rw [haddr]
  refine ⟨?_, ?_, ?_⟩
  · have := hb0
    rw [Nat.add_zero] at this
    rw [this, hv, byteOf]
    norm_num
    omega
  · rw [hb1, hv, byteOf]
    norm_num
    omega
  · unfold load32
    have e0 := hb0
    rw [Nat.add_zero] at e0
    rw [e0, hb1, hb2, hb3, hsum, hv]

/-- Witness of C1: the pixel in column 2, row 3 of a rendered 4 by 4 buffer. -/
theorem render_pixel_formula_witness :
    (Win32RenderGradient buffer4x4 0 0 (List.replicate 64 255)).getD
        ((3 : Int) * buffer4x4.pitch + 2 * 4).toNat 0 = (((2 : Int) + 0) % 256).toNat ∧
    (Win32RenderGradient buffer4x4 0 0 (List.replicate 64 255)).getD
        (((3 : Int) * buffer4x4.pitch + 2 * 4).toNat + 1) 0 = (((3 : Int) + 0) % 256).toNat ∧
    load32 (Win32RenderGradient buffer4x4 0 0 (List.replicate 64 255))
        ((3 : Int) * buffer4x4.pitch + 2 * 4).toNat
      = (((3 : Int) + 0) % 256).toNat * 256 + (((2 : Int) + 0) % 256).toNat :=
  render_pixel_formula buffer4x4 0 0 (List.replicate 64 255) 2 3
    (by decide) (by decide) (by decide) (by decide) (by decide) (by decide) (by decide)
    (by decide) (by decide) (by decide)

/-- C2: on a buffer with `pitch = width * 4` and a region of `height * pitch` bytes the
rendered memory does not depend on the previous contents, a second render erases the
first, and every byte is the one the formula gives. -/
theorem render_overwrites (b : win32_offscreen_buffer) (xo1 yo1 xo2 yo2 : Int)
    (m1 m2 : Memory) (hw : 0 ≤ b.width) (hh : 0 ≤ b.height) (hp : b.pitch = b.width * 4)
    (h1 : (m1.length : Int) = b.height * b.pitch)
    (h2 : (m2.length : Int) = b.height * b.pitch) :
    Win32RenderGradient b xo2 yo2 m1 = Win32RenderGradient b xo2 yo2 m2 ∧
    Win32RenderGradient b xo2 yo2 (Win32RenderGradient b xo1 yo1 m1)
      = Win32RenderGradient b xo2 yo2 m1 ∧
    Win32RenderGradient b xo2 yo2 m1 = gradientBytes b xo2 yo2 := by
  have e1 := render_eq_gradientBytes b xo2 yo2 m1 hw hh hp h1
  have e2 := render_eq_gradientBytes b xo2 yo2 m2 hw hh hp h2
  have e0 := render_eq_gradientBytes b xo1 yo1 m1 hw hh hp h1
  have hl : ((Win32RenderGradient b xo1 yo1 m1).length : Int) = b.height * b.pitch := by
    obtain ⟨wn, hwn⟩ := Int.eq_ofNat_of_zero_le hw
    obtain ⟨hn, hhn⟩ := Int.eq_ofNat_of_zero_le hh
    have hpn : b.pitch = ((4 * wn : Nat) : Int) := by rw [hp, hwn]; push_cast; ring
    have hprod : b.height * b.pitch = ((hn * (4 * wn) : Nat) : Int) := by
      rw [hpn, hhn]; push_cast; ring
    have hlenN : m1.length = hn * (4 * wn) := by
      rw [hprod] at h1; exact_mod_cast h1
    rw [(render_bytes b xo1 yo1 wn hn hwn hhn hpn m1 hlenN).1]
    exact h1
  have e3 := render_eq_gradientBytes b xo2 yo2 (Win32RenderGradient b xo1 yo1 m1) hw hh hp hl
  exact ⟨by rw [e1, e2], by rw [e3, e1], e1⟩

/-- Witness of C2: the 4 by 4 buffer made by `Win32ResizeDIBSection`, over a region of
zeros and over a region of `255`s. -/
theorem render_overwrites_witness :
    Win32RenderGradient (Win32ResizeDIBSection zeroBuffer 4 4 Allocator.init true).1 3 4
        (List.replicate 64 0)
      = Win32RenderGradient (Win32ResizeDIBSection zeroBuffer 4 4 Allocator.init true).1 3 4
        (List.replicate 64 255) ∧
    Win32RenderGradient (Win32ResizeDIBSection zeroBuffer 4 4 Allocator.init true).1 3 4
        (Win32RenderGradient (Win32ResizeDIBSection zeroBuffer 4 4 Allocator.init true).1 1 2
          (List.replicate 64 0))
      = Win32RenderGradient (Win32ResizeDIBSection zeroBuffer 4 4 Allocator.init true).1 3 4
        (List.replicate 64 0) :=
  have h := render_overwrites (Win32ResizeDIBSection zeroBuffer 4 4 Allocator.init true).1
    1 2 3 4 (List.replicate 64 0) (List.replicate 64 255)
    (by decide) (by decide) (by decide) (by decide) (by decide)
  ⟨h.1, h.2.1⟩

/-- The worked example in full: the 16 pixel values of a rendered 4 by 4 buffer with
offsets `(0, 0)`, row by row, are `y * 256 + x`. -/
theorem render_4x4_pixels :
    (List.range 16).map (fun i =>
        load32 (Win32RenderGradient buffer4x4 0 0 (List.replicate 64 255)) (4 * i))
      = [0, 1, 2, 3, 256, 257, 258, 259, 512, 513, 514, 515, 768, 769, 770, 771] := by
  decide

/-! ## Win32ResizeDIBSection -/

/-- C3, as stated, fails at `width = 2^30`, `height = 1`: `width * 4` and
`width * height * 4` are not representable in the 32-bit `int` fields, the stored
pitch and the requested size are `0`, not `2^32`. -/
theorem resize_pitch_overflow :
    (0 < (1073741824 : Int) ∧ 0 < (1 : Int) ∧ isInt32 1073741824 ∧ isInt32 1) ∧
    (Win32ResizeDIBSection zeroBuffer 1073741824 1 Allocator.init true).1.pitch = 0 ∧
    (Win32ResizeDIBSection zeroBuffer 1073741824 1 Allocator.init true).1.pitch
      ≠ 1073741824 * 4 ∧
    (Win32ResizeDIBSection zeroBuffer 1073741824 1 Allocator.init true).2.log
      = [AllocEvent.request 0 1] := by
  decide

/-- C3 (amended): for `width > 0`, `height > 0` with `width * height * 4` representable
as an `int`, `Win32ResizeDIBSection` records `width`, `height`, `bytesPerPixel = 4` and
`pitch = width * 4`, and the one request it logs asks for
`width * height * 4 = height * pitch` bytes; so `pitch ≥ width * 4` holds with equality. -/
theorem resize_records_dimensions (b : win32_offscreen_buffer) (a : Allocator)
    (grant : Bool) (width height : Int) (hw : 0 < width) (hh : 0 < height)
    (hsz : width * height * 4 ≤ 2147483647) :
    (Win32ResizeDIBSection b width height a grant).1.width = width ∧
    (Win32ResizeDIBSection b width height a grant).1.height = height ∧
    (Win32ResizeDIBSection b width height a grant).1.bytesPerPixel = 4 ∧
    (Win32ResizeDIBSection b width height a grant).1.pitch = width * 4 ∧
    (Win32ResizeDIBSection b width height a grant).2.log.getLast?
      = some (AllocEvent.request (width * height * 4)
          (Win32ResizeDIBSection b width height a grant).1.memory) ∧
    width * height * 4
      = (Win32ResizeDIBSection b width height a grant).1.height
        * (Win32ResizeDIBSection b width height a grant).1.pitch ∧
    (Win32ResizeDIBSection b width height a grant).1.width * 4
      ≤ (Win32ResizeDIBSection b width height a grant).1.pitch := by
  have hwh : 0 < width * height := Int.mul_pos hw hh
  have hw4 : width * 4 ≤ width * height * 4 := by nlinarith
  have hwh4 : width * height ≤ width * height * 4 := by omega
  have e1 : wrapInt32 (width * 4) = width * 4 :=
    wrapInt32_of_isInt32 ⟨by omega, by omega⟩
  have e2 : wrapInt32 (width * height) = width * height :=
    wrapInt32_of_isInt32 ⟨by omega, by omega⟩
  have e3 : wrapInt32 (width * height * 4) = width * height * 4 :=
    wrapInt32_of_isInt32 ⟨by omega, by omega⟩
  have hlog : (Win32ResizeDIBSection b width height a grant).2.log.getLast?
      = some (AllocEvent.request (width * height * 4)
          (Win32ResizeDIBSection b width height a grant).1.memory) := by
    simp only [Win32ResizeDIBSection, VirtualAlloc, e2, e3]
    cases grant <;> simp
  refine ⟨rfl, rfl, rfl, ?_, hlog, ?_, ?_⟩
  · simp only [Win32ResizeDIBSection, e1]
  · simp only [Win32ResizeDIBSection, e1]
    ring
  · simp only [Win32ResizeDIBSection, e1]
    exact le_refl _

/-- Witness of C3 (amended): the 1280 by 720 back buffer `WinMain` creates. -/
theorem resize_records_dimensions_witness :
    (Win32ResizeDIBSection zeroBuffer 1280 720 Allocator.init true).1.width = 1280 ∧
    (Win32ResizeDIBSection zeroBuffer 1280 720 Allocator.init true).1.height = 720 ∧
    (Win32ResizeDIBSection zeroBuffer 1280 720 Allocator.init true).1.bytesPerPixel = 4 ∧
    (Win32ResizeDIBSection zeroBuffer 1280 720 Allocator.init true).1.pitch = 1280 * 4 ∧
    (Win32ResizeDIBSection zeroBuffer 1280 720 Allocator.init true).2.log.getLast?
      = some (AllocEvent.request (1280 * 720 * 4)
          (Win32ResizeDIBSection zeroBuffer 1280 720 Allocator.init true).1.memory) ∧
    (1280 : Int) * 720 * 4
      = (Win32ResizeDIBSection zeroBuffer 1280 720 Allocator.init true).1.height
        * (Win32ResizeDIBSection zeroBuffer 1280 720 Allocator.init true).1.pitch ∧
    (Win32ResizeDIBSection zeroBuffer 1280 720 Allocator.init true).1.width * 4
      ≤ (Win32ResizeDIBSection zeroBuffer 1280 720 Allocator.init true).1.pitch :=
  resize_records_dimensions zeroBuffer Allocator.init true 1280 720 (by decide) (by decide)
    (by decide)

/-- C10: for `width > 0`, `height > 0`, after `Win32ResizeDIBSection` the header has
`biHeight = -height < 0`, `biWidth = width`, `biBitCount = 32`, `biPlanes = 1`,
`biCompression = BI_RGB`, and `Win32DisplayBufferInWindow` passes this header, the
buffer memory and the source rectangle `0, 0, width, height` to `StretchDIBits`. -/
theorem resize_header_top_down (b : win32_offscreen_buffer) (a : Allocator) (grant : Bool)
    (width height : Int) (deviceContext : Nat) (windowWidth windowHeight : Int)
    (hw : 0 < width) (hh : 0 < height) (hwi : isInt32 width) (hhi : isInt32 height) :
    (Win32ResizeDIBSection b width height a grant).1.info.bmiHeader.biHeight = -height ∧
    (Win32ResizeDIBSection b width height a grant).1.info.bmiHeader.biHeight < 0 ∧
    (Win32ResizeDIBSection b width height a grant).1.info.bmiHeader.biWidth = width ∧
    (Win32ResizeDIBSection b width height a grant).1.info.bmiHeader.biBitCount = 32 ∧
    (Win32ResizeDIBSection b width height a grant).1.info.bmiHeader.biPlanes = 1 ∧
    (Win32ResizeDIBSection b width height a grant).1.info.bmiHeader.biCompression = BI_RGB ∧
    (Win32DisplayBufferInWindow (Win32ResizeDIBSection b width height a grant).1
        deviceContext windowWidth windowHeight).bitsInfo
      = (Win32ResizeDIBSection b width height a grant).1.info ∧
    (Win32DisplayBufferInWindow (Win32ResizeDIBSection b width height a grant).1
        deviceContext windowWidth windowHeight).bits
      = (Win32ResizeDIBSection b width height a grant).1.memory ∧
    (Win32DisplayBufferInWindow (Win32ResizeDIBSection b width height a grant).1
        deviceContext windowWidth windowHeight).xSrc = 0 ∧
    (Win32DisplayBufferInWindow (Win32ResizeDIBSection b width height a grant).1
        deviceContext windowWidth windowHeight).ySrc = 0 ∧
    (Win32DisplayBufferInWindow (Win32ResizeDIBSection b width height a grant).1
        deviceContext windowWidth windowHeight).srcWidth = width ∧
    (Win32DisplayBufferInWindow (Win32ResizeDIBSection b width height a grant).1
        deviceContext windowWidth windowHeight).srcHeight = height := by
  have hwpos : 0 < width := hw
  have hwr : -2147483648 ≤ width := hwi.1
  have e : wrapInt32 (-height) = -height := by
    unfold isInt32 at hhi
    exact wrapInt32_of_isInt32 ⟨by omega, by omega⟩
  have hb : (Win32ResizeDIBSection b width height a grant).1.info.bmiHeader.biHeight
      = -height := by
    simp only [Win32ResizeDIBSection, e]
  refine ⟨hb, by rw [hb]; omega, rfl, rfl, rfl, rfl, rfl, rfl, rfl, rfl, rfl, rfl⟩

/-- Witness of C10: the 1280 by 720 back buffer shown in an 800 by 600 window. -/
theorem resize_header_top_down_witness :
    (Win32ResizeDIBSection zeroBuffer 1280 720 Allocator.init true).1.info.bmiHeader.biHeight
      = -720 ∧
    (Win32DisplayBufferInWindow (Win32ResizeDIBSection zeroBuffer 1280 720 Allocator.init true).1
        7 800 600).bitsInfo.bmiHeader.biHeight = -720 :=
  have h := resize_header_top_down zeroBuffer Allocator.init true 1280 720 7 800 600
    (by decide) (by decide) (by decide) (by decide)
  ⟨h.1, by rw [h.2.2.2.2.2.2.1]; exact h.1⟩

/-! ## Ownership of the region across resizes -/

theorem released_append (l1 l2 : List AllocEvent) :
    released (l1 ++ l2) = released l1 ++ released l2 := by
  induction l1 with
  | nil => rfl
  | cons e es ih =>
    cases e with
    | release p => simp [released, ih]
    | request sz r => simp [released, ih]

theorem resize_log (b : win32_offscreen_buffer) (a : Allocator) (grant : Bool)
    (width height : Int) :
    (Win32ResizeDIBSection b width height a grant).2.log
      = a.log ++ (if b.memory ≠ 0 then [AllocEvent.release b.memory] else [])
          ++ [AllocEvent.request (wrapInt32 (wrapInt32 (width * height) * 4))
                (Win32ResizeDIBSection b width height a grant).1.memory] := by
  by_cases hm : b.memory = 0 <;> cases grant <;>
    simp [Win32ResizeDIBSection, VirtualAlloc, VirtualFree, hm]

theorem resize_preserves_inv (s : win32_offscreen_buffer × Allocator) (width height : Int)
    (grant : Bool) (h : ResizeInv s) :
    ResizeInv (Win32ResizeDIBSection s.1 width height s.2 grant) := by
  obtain ⟨hlive, hlt, hnd, hrel⟩ := h
  have hlog := resize_log s.1 s.2 grant width height
  unfold ResizeInv
  rw [hlog, released_append, released_append]
  by_cases hm : s.1.memory = 0
  · cases grant
    · simp only [Win32ResizeDIBSection, VirtualAlloc, VirtualFree, hm, ne_eq, ↓reduceIte,
        Bool.false_eq_true,
        not_true_eq_false, if_false, released, List.append_nil]
      rw [hm] at hlive
      refine ⟨by simpa using hlive, by omega, hnd, ?_⟩
      intro p hp
      have := hrel p hp
      omega
    · simp only [Win32ResizeDIBSection, VirtualAlloc, VirtualFree, hm, ne_eq, ↓reduceIte,
        Bool.false_eq_true,
        not_true_eq_false, if_false, released, List.append_nil, if_true]
      rw [hm] at hlive
      have hlive' : s.2.live = [] := by simpa using hlive
      have hne : s.2.next ≠ 0 := by omega
      refine ⟨by simp [hlive', hne], by omega, hnd, ?_⟩
      intro p hp
      have := hrel p hp
      omega
  · have hlive' : s.2.live = [s.1.memory] := by simpa [hm] using hlive
    have hnotin : s.1.memory ∉ released s.2.log := fun hin => (hrel _ hin).2.2 rfl
    have hnd' : (released s.2.log ++ [s.1.memory]).Nodup := by
      rw [List.nodup_append]
      refine ⟨hnd, List.nodup_singleton _, ?_⟩
      intro x hx1 hx2
      rw [List.mem_singleton] at hx2
      subst hx2
      exact hnotin hx1
    cases grant
    · simp only [Win32ResizeDIBSection, VirtualAlloc, VirtualFree, hm, ne_eq, ↓reduceIte,
        Bool.false_eq_true,
        not_false_eq_true, if_true, released, List.append_nil]
      refine ⟨by simp [hlive'], by omega, hnd', ?_⟩
      intro p hp
      rw [List.mem_append, List.mem_singleton] at hp
      rcases hp with hp | hp
      · have := hrel p hp
        omega
      · subst hp
        omega
    · simp only [Win32ResizeDIBSection, VirtualAlloc, VirtualFree, hm, ne_eq, ↓reduceIte,
        Bool.false_eq_true,
        not_false_eq_true, if_true, released, List.append_nil]
      have hne : s.2.next ≠ 0 := by omega
      refine ⟨by simp [hlive', hne], by omega, hnd', ?_⟩
      intro p hp
      rw [List.mem_append, List.mem_singleton] at hp
      rcases hp with hp | hp
      · have := hrel p hp
        omega
      · subst hp
        omega

theorem resizeRun_preserves_inv (calls : List ResizeCall) :
    ∀ s : win32_offscreen_buffer × Allocator, ResizeInv s → ResizeInv (resizeRun calls s) := by
  induction calls with
  | nil => intro s h; exact h
  | cons c cs ih =>
    intro s h
    exact ih _ (resize_preserves_inv s c.width c.height c.grant h)

theorem resizeInv_init : ResizeInv (zeroBuffer, Allocator.init) := by
  unfold ResizeInv
  simp [zeroBuffer, Allocator.init, released]

/-- Three resizes in a row, the second one refused: the first region is released before
the second request, the refused request leaves null memory and nothing live, and the
third call releases nothing. -/
theorem resize_three_times :
    (resizeRun [⟨4, 4, true⟩, ⟨8, 8, false⟩, ⟨2, 2, true⟩] (zeroBuffer, Allocator.init)).2.log
      = [AllocEvent.request 64 1, AllocEvent.release 1, AllocEvent.request 256 0,
         AllocEvent.request 16 2] ∧
    (resizeRun [⟨4, 4, true⟩, ⟨8, 8, false⟩] (zeroBuffer, Allocator.init)).1.memory = 0 ∧
    (resizeRun [⟨4, 4, true⟩, ⟨8, 8, false⟩] (zeroBuffer, Allocator.init)).2.live = [] ∧
    (resizeRun [⟨4, 4, true⟩, ⟨8, 8, false⟩, ⟨2, 2, true⟩] (zeroBuffer, Allocator.init)).2.live
      = [2] := by
  decide

/-- C4: from the zero-initialised buffer and the unused allocator, after every sequence
of `Win32ResizeDIBSection` calls with any answers of the allocator the live regions are
exactly the buffer memory (none when it is null) and no region was released twice; and
the next call first releases the held region (if any), then makes its one request,
leaves null memory when the request is refused, and never keeps or leaves live the
region it released. -/
theorem resize_sequence_owns_memory (calls : List ResizeCall) (c : ResizeCall) :
    (resizeRun calls (zeroBuffer, Allocator.init)).2.live
      = (if (resizeRun calls (zeroBuffer, Allocator.init)).1.memory ≠ 0
          then [(resizeRun calls (zeroBuffer, Allocator.init)).1.memory] else []) ∧
    (released (resizeRun calls (zeroBuffer, Allocator.init)).2.log).Nodup ∧
    (resizeRun (calls ++ [c]) (zeroBuffer, Allocator.init)).2.log
      = (resizeRun calls (zeroBuffer, Allocator.init)).2.log
        ++ (if (resizeRun calls (zeroBuffer, Allocator.init)).1.memory ≠ 0
            then [AllocEvent.release (resizeRun calls (zeroBuffer, Allocator.init)).1.memory]
            else [])
        ++ [AllocEvent.request (wrapInt32 (wrapInt32 (c.width * c.height) * 4))
              (resizeRun (calls ++ [c]) (zeroBuffer, Allocator.init)).1.memory] ∧
    (c.grant = false → (resizeRun (calls ++ [c]) (zeroBuffer, Allocator.init)).1.memory = 0) ∧
    ((resizeRun calls (zeroBuffer, Allocator.init)).1.memory ≠ 0 →
      (resizeRun (calls ++ [c]) (zeroBuffer, Allocator.init)).1.memory
        ≠ (resizeRun calls (zeroBuffer, Allocator.init)).1.memory ∧
      (resizeRun calls (zeroBuffer, Allocator.init)).1.memory
        ∉ (resizeRun (calls ++ [c]) (zeroBuffer, Allocator.init)).2.live) := by
  have hrun : ∀ (cs : List ResizeCall) (s : win32_offscreen_buffer × Allocator),
      resizeRun (cs ++ [c]) s
        = Win32ResizeDIBSection (resizeRun cs s).1 c.width c.height (resizeRun cs s).2 c.grant := by
    intro cs
    induction cs with
    | nil => intro s; rfl
    | cons d ds ih => intro s; exact ih _
  have hinv := resizeRun_preserves_inv calls _ resizeInv_init
  have hinv' := resize_preserves_inv _ c.width c.height c.grant hinv
  rw [hrun]
  refine ⟨hinv.1, hinv.2.2.1, resize_log _ _ _ _ _, ?_, ?_⟩
  · intro hg
    simp [Win32ResizeDIBSection, VirtualAlloc, hg]
  · intro hne
    have hmem : (Win32ResizeDIBSection (resizeRun calls (zeroBuffer, Allocator.init)).1
        c.width c.height (resizeRun calls (zeroBuffer, Allocator.init)).2 c.grant).1.memory
          ≠ (resizeRun calls (zeroBuffer, Allocator.init)).1.memory := by
      have hrel := hinv'.2.2.2 (resizeRun calls (zeroBuffer, Allocator.init)).1.memory
      rw [resize_log, released_append, released_append] at hrel
      have hin := hrel (by simp [hne, released])
      exact fun heq => hin.2.2 heq.symm
    refine ⟨hmem, ?_⟩
    rw [hinv'.1]
    split
    · rw [List.mem_singleton]
      exact fun heq => hmem heq.symm
    · simp

/-! ## The frame loop -/

@[simp] theorem emit_trace (s : ProgramState) (l : List Action) :
    (s.emit l).trace = s.trace ++ l := rfl

@[simp] theorem emit_globalRunning (s : ProgramState) (l : List Action) :
    (s.emit l).globalRunning = s.globalRunning := rfl

@[simp] theorem emit_faulted (s : ProgramState) (l : List Action) :
    (s.emit l).faulted = s.faulted := rfl

@[simp] theorem emit_xinput (s : ProgramState) (l : List Action) :
    (s.emit l).xinput = s.xinput := rfl

@[simp] theorem emit_globalBackBuffer (s : ProgramState) (l : List Action) :
    (s.emit l).globalBackBuffer = s.globalBackBuffer := rfl

theorem callback_keeps_stopped (s : ProgramState) (hw u w l : Nat) (r : RECT)
    (h : s.globalRunning = false) :
    (Win32MainWindowCallback s hw u w l r).globalRunning = false := by
  unfold Win32MainWindowCallback
  split_ifs <;> simp [h]

theorem callback_close (s : ProgramState) (hw u w l : Nat) (r : RECT)
    (h : u = WM_CLOSE ∨ u = WM_DESTROY) :
    (Win32MainWindowCallback s hw u w l r).globalRunning = false := by
  unfold Win32MainWindowCallback
  rcases h with h | h <;> subst h <;> simp [WM_CLOSE, WM_DESTROY, WM_ACTIVATEAPP]

theorem callback_faulted (s : ProgramState) (hw u w l : Nat) (r : RECT) :
    (Win32MainWindowCallback s hw u w l r).faulted = s.faulted := by
  unfold Win32MainWindowCallback
  split_ifs <;> simp

theorem callback_dispatched (s : ProgramState) (hw u w l : Nat) (r : RECT) :
    dispatchedOf (Win32MainWindowCallback s hw u w l r).trace = dispatchedOf s.trace := by
  unfold Win32MainWindowCallback
  split_ifs <;> simp [dispatchedOf, List.filterMap_append]

theorem callback_renders (s : ProgramState) (hw u w l : Nat) (r : RECT) :
    renderOffsetsOf (Win32MainWindowCallback s hw u w l r).trace = renderOffsetsOf s.trace := by
  unfold Win32MainWindowCallback
  split_ifs <;> simp [renderOffsetsOf, List.filterMap_append]

theorem callback_starts (s : ProgramState) (hw u w l : Nat) (r : RECT) :
    startsOf (Win32MainWindowCallback s hw u w l r).trace = startsOf s.trace := by
  unfold Win32MainWindowCallback
  split_ifs <;> simp [startsOf, List.count_append, List.count_cons]

theorem dispatch_keeps_stopped (s : ProgramState) (p : PendingMessage)
    (h : s.globalRunning = false) : (DispatchMessageA s p).globalRunning = false := by
  unfold DispatchMessageA
  dsimp only
  split_ifs
  · simpa using h
  · exact callback_keeps_stopped _ _ _ _ _ _ (by simpa using h)

theorem dispatch_faulted (s : ProgramState) (p : PendingMessage) :
    (DispatchMessageA s p).faulted = s.faulted := by
  unfold DispatchMessageA
  dsimp only
  split_ifs
  · simp
  · rw [callback_faulted]; simp

theorem dispatch_dispatched (s : ProgramState) (p : PendingMessage) :
    dispatchedOf (DispatchMessageA s p).trace = dispatchedOf s.trace ++ [p.msg] := by
  unfold DispatchMessageA
  dsimp only
  split_ifs
  · simp [dispatchedOf, List.filterMap_append]
  · rw [callback_dispatched]; simp [dispatchedOf, List.filterMap_append]

theorem dispatch_renders (s : ProgramState) (p : PendingMessage) :
    renderOffsetsOf (DispatchMessageA s p).trace = renderOffsetsOf s.trace := by
  unfold DispatchMessageA
  dsimp only
  split_ifs
  · simp [renderOffsetsOf, List.filterMap_append]
  · rw [callback_renders]; simp [renderOffsetsOf, List.filterMap_append]

theorem dispatch_starts (s : ProgramState) (p : PendingMessage) :
    startsOf (DispatchMessageA s p).trace = startsOf s.trace := by
  unfold DispatchMessageA
  dsimp only
  split_ifs
  · simp [startsOf, List.count_append, List.count_cons]
  · rw [callback_starts]; simp [startsOf, List.count_append, List.count_cons]

theorem drain_keeps_stopped (ps : List PendingMessage) :
    ∀ s : ProgramState, s.globalRunning = false →
      (drainMessages ps s).globalRunning = false := by
  induction ps with
  | nil => intro s h; exact h
  | cons p ps ih =>
    intro s h
    unfold drainMessages
    apply ih
    apply dispatch_keeps_stopped
    split_ifs <;> simp [h]

theorem drain_close (ps : List PendingMessage) :
    ∀ s : ProgramState, (∃ p ∈ ps, isCloseEvent p.msg = true) →
      (drainMessages ps s).globalRunning = false := by
  induction ps with
  | nil => intro s h; simp at h
  | cons p ps ih =>
    intro s h
    unfold drainMessages
    by_cases hp : isCloseEvent p.msg = true
    · apply drain_keeps_stopped
      simp only [isCloseEvent, decide_eq_true_eq] at hp
      rcases hp with hq | ⟨hwnd, hc⟩
      · apply dispatch_keeps_stopped
        simp [hq]
      · unfold DispatchMessageA
        dsimp only
        rw [if_neg hwnd]
        exact callback_close _ _ _ _ _ _ hc
    · apply ih
      obtain ⟨q, hq, hqc⟩ := h
      rcases List.mem_cons.mp hq with rfl | hq
      · exact absurd hqc hp
      · exact ⟨q, hq, hqc⟩

theorem drain_faulted (ps : List PendingMessage) :
    ∀ s : ProgramState, (drainMessages ps s).faulted = s.faulted := by
  induction ps with
  | nil => intro s; rfl
  | cons p ps ih =>
    intro s
    unfold drainMessages
    rw [ih, dispatch_faulted]
    split_ifs <;> simp

theorem drain_dispatched (ps : List PendingMessage) :
    ∀ s : ProgramState,
      dispatchedOf (drainMessages ps s).trace
        = dispatchedOf s.trace ++ ps.map PendingMessage.msg := by
  induction ps with
  | nil => intro s; simp [drainMessages]
  | cons p ps ih =>
    intro s
    unfold drainMessages
    rw [ih, dispatch_dispatched]
    split_ifs <;> simp [dispatchedOf, List.filterMap_append]

theorem drain_renders (ps : List PendingMessage) :
    ∀ s : ProgramState,
      renderOffsetsOf (drainMessages ps s).trace = renderOffsetsOf s.trace := by
  induction ps with
  | nil => intro s; rfl
  | cons p ps ih =>
    intro s
    unfold drainMessages
    rw [ih, dispatch_renders]
    split_ifs <;> simp [renderOffsetsOf, List.filterMap_append]

theorem drain_starts (ps : List PendingMessage) :
    ∀ s : ProgramState, startsOf (drainMessages ps s).trace = startsOf s.trace := by
  induction ps with
  | nil => intro s; rfl
  | cons p ps ih =>
    intro s
    unfold drainMessages
    rw [ih, dispatch_starts]
    split_ifs <;> simp [startsOf, List.count_append, List.count_cons]

theorem pollController_fields (f : FrameInput) (i : Nat) (s : ProgramState) :
    (pollController f i s).globalRunning = s.globalRunning ∧
    (pollController f i s).faulted = s.faulted ∧
    (pollController f i s).xinput = s.xinput ∧
    (pollController f i s).globalBackBuffer = s.globalBackBuffer ∧
    renderOffsetsOf (pollController f i s).trace = renderOffsetsOf s.trace ∧
    startsOf (pollController f i s).trace = startsOf s.trace := by
  unfold pollController
  simp only [ite_self]
  split_ifs <;>
    simp [renderOffsetsOf, startsOf, List.filterMap_append, List.count_append, List.count_cons]

theorem pollGamepads_fields (f : FrameInput) (fuel : Nat) :
    ∀ (i : Nat) (s : ProgramState),
      (pollGamepads f fuel i s).globalRunning = s.globalRunning ∧
      (pollGamepads f fuel i s).faulted = s.faulted ∧
      (pollGamepads f fuel i s).xinput = s.xinput ∧
      (pollGamepads f fuel i s).globalBackBuffer = s.globalBackBuffer ∧
      renderOffsetsOf (pollGamepads f fuel i s).trace = renderOffsetsOf s.trace ∧
      startsOf (pollGamepads f fuel i s).trace = startsOf s.trace := by
  induction fuel with
  | zero => intro i s; exact ⟨rfl, rfl, rfl, rfl, rfl, rfl⟩
  | succ fuel ih =>
    intro i s
    unfold pollGamepads
    split_ifs
    · obtain ⟨a1, a2, a3, a4, a5, a6⟩ := ih (i + 1) (pollController f i s)
      obtain ⟨b1, b2, b3, b4, b5, b6⟩ := pollController_fields f i s
      exact ⟨a1.trans b1, a2.trans b2, a3.trans b3, a4.trans b4, a5.trans b5, a6.trans b6⟩
    · exact ⟨rfl, rfl, rfl, rfl, rfl, rfl⟩

theorem frame_running (f : FrameInput) (xo yo : Int) (s : ProgramState) :
    (frameIteration f xo yo s).globalRunning = (drainMessages f.pending s).globalRunning := by
  unfold frameIteration
  dsimp only
  have h := (pollGamepads_fields f XUSER_MAX_COUNT 0 (drainMessages f.pending s)).1
  split_ifs <;> simp [h]

theorem frame_renders (f : FrameInput) (xo yo : Int) (s : ProgramState) :
    renderOffsetsOf (frameIteration f xo yo s).trace
      = renderOffsetsOf s.trace ++ [(xo, yo)] := by
  unfold frameIteration
  dsimp only
  have h := (pollGamepads_fields f XUSER_MAX_COUNT 0 (drainMessages f.pending s)).2.2.2.2.1
  rw [drain_renders] at h
  split_ifs <;> simp [renderOffsetsOf, List.filterMap_append] <;>
    simpa [renderOffsetsOf] using h

theorem frame_starts (f : FrameInput) (xo yo : Int) (s : ProgramState) :
    startsOf (frameIteration f xo yo s).trace = startsOf s.trace := by
  unfold frameIteration
  dsimp only
  have h := (pollGamepads_fields f XUSER_MAX_COUNT 0 (drainMessages f.pending s)).2.2.2.2.2
  rw [drain_starts] at h
  split_ifs <;> simp [startsOf, List.count_append, List.count_cons] <;>
    simpa [startsOf] using h

theorem mainLoop_stopped (xo yo : Int) (fs : List FrameInput) (s : ProgramState)
    (h : s.globalRunning = false) : mainLoop xo yo fs s = s := by
  cases fs with
  | nil => rfl
  | cons f fs => simp [mainLoop, h]

theorem mainLoop_renders (xo yo : Int) (fs : List FrameInput) :
    ∀ s : ProgramState, ∃ n : Nat,
      renderOffsetsOf (mainLoop xo yo fs s).trace
        = renderOffsetsOf s.trace ++ List.replicate n (xo, yo) := by
  induction fs with
  | nil => intro s; exact ⟨0, by simp [mainLoop]⟩
  | cons f fs ih =>
    intro s
    unfold mainLoop
    split_ifs
    · obtain ⟨n, hn⟩ := ih (frameIteration f xo yo s)
      refine ⟨n + 1, ?_⟩
      rw [hn, frame_renders, List.append_assoc]
      rfl
    · exact ⟨0, by simp⟩

/-- C6: when the queue at the start of a drain holds a close event (`WM_QUIT`,
`WM_CLOSE` or `WM_DESTROY`) at any position, the drain dispatches every pending
message in order, `globalRunning` is false when the drain ends and when the iteration
ends, nothing stores `true` to it, the iteration makes its one render, and the loop
starts no further iteration whatever frames would follow. -/
theorem close_event_stops_loop (f : FrameInput) (rest : List FrameInput) (s : ProgramState)
    (xOffset yOffset : Int) (hrun : s.globalRunning = true) (hok : s.faulted = false)
    (hclose : ∃ p ∈ f.pending, isCloseEvent p.msg = true) :
    dispatchedOf (drainMessages f.pending s).trace
      = dispatchedOf s.trace ++ f.pending.map PendingMessage.msg ∧
    (drainMessages f.pending s).globalRunning = false ∧
    (frameIteration f xOffset yOffset s).globalRunning = false ∧
    mainLoop xOffset yOffset (f :: rest) s = frameIteration f xOffset yOffset s ∧
    startsOf (mainLoop xOffset yOffset (f :: rest) s).trace = startsOf s.trace ∧
    renderOffsetsOf (mainLoop xOffset yOffset (f :: rest) s).trace
      = renderOffsetsOf s.trace ++ [(xOffset, yOffset)] := by
  have hd := drain_close f.pending s hclose
  have hf : (frameIteration f xOffset yOffset s).globalRunning = false := by
    rw [frame_running]; exact hd
  have hloop : mainLoop xOffset yOffset (f :: rest) s = frameIteration f xOffset yOffset s := by
    rw [mainLoop, if_pos ⟨hrun, hok⟩]
    exact mainLoop_stopped _ _ _ _ hf
  refine ⟨drain_dispatched _ _, hd, hf, hloop, ?_, ?_⟩
  · rw [hloop, frame_starts]
  · rw [hloop, frame_renders]

/-- Witness of C6: a queue holding a paint, a close and an activation, followed by
another frame that is never started. -/
theorem close_event_stops_loop_witness :
    dispatchedOf (drainMessages closeFrame.pending runningState).trace
      = dispatchedOf runningState.trace ++ closeFrame.pending.map PendingMessage.msg ∧
    (drainMessages closeFrame.pending runningState).globalRunning = false ∧
    mainLoop 0 0 [closeFrame, idleFrame] runningState = frameIteration closeFrame 0 0 runningState :=
  have h := close_event_stops_loop closeFrame [idleFrame] runningState 0 0 (by decide)
    (by decide) ⟨_, List.mem_cons_of_mem _ (List.mem_cons_self _ _), by decide⟩
  ⟨h.1, h.2.1, h.2.2.2.1⟩

/-! ## Startup failures -/

/-- The two startup failures `WinMain` tests for: when `RegisterClassA` fails or
`CreateWindowExA` returns no window, `WinMain` returns 0 without storing `true` to
`globalRunning`, without a poll, a render or a dispatch, and without a second try. -/
theorem startup_failure_aborts (input : StartupInput) (frames : List FrameInput)
    (h : input.registerClassOk = false ∨ input.createWindowOk = false) :
    (WinMain input frames).1 = some 0 ∧
    (WinMain input frames).2.globalRunning = false ∧
    ((WinMain input frames).2.trace
        = [Action.registerClass false, Action.outputDebugString DebugText.exitingProgram] ∨
     (WinMain input frames).2.trace
        = [Action.registerClass true, Action.createWindow false,
           Action.outputDebugString DebugText.exitingProgram]) := by
  by_cases hr : input.registerClassOk = false
  · simp [WinMain, cleanup, hr]
  · have hr' : input.registerClassOk = true := by simpa using hr
    have hc : input.createWindowOk = false := by
      rcases h with h | h
      · exact absurd h hr
      · exact h
    simp [WinMain, cleanup, hr', hc]

/-- C5, the failing input: when the allocation of the back buffer is refused and the
other startup steps succeed, `WinMain` stores `true` to `globalRunning`, polls the
four slots and calls `Win32RenderGradient` on the buffer whose memory is null. -/
theorem allocation_failure_enters_loop :
    (WinMain allocationRefused [idleFrame]).2.globalBackBuffer.memory = 0 ∧
    (WinMain allocationRefused [idleFrame]).2.trace
      = [Action.registerClass true, Action.createWindow true, Action.setRunning true,
         Action.getState 0 0, Action.getState 1 0, Action.getState 2 0, Action.getState 3 0,
         Action.render (WinMain allocationRefused [idleFrame]).2.globalBackBuffer 0 0] ∧
    (WinMain allocationRefused [idleFrame]).2.faulted = true ∧
    (WinMain allocationRefused [idleFrame]).1 = none := by
  decide

/-! ## Gamepad polling -/

theorem pollController_polled (f : FrameInput) (i : Nat) (s : ProgramState) :
    polledOf (pollController f i s).trace
      = polledOf s.trace ++ [(i, (XInputGetState s.xinput f i (f.uninitialised i)).1)] ∧
    vibratedOf (pollController f i s).trace
      = vibratedOf s.trace ++ (if aButtonAfterPoll s.xinput f i = true then [i] else []) := by
  unfold pollController aButtonAfterPoll
  simp only [ite_self]
  split_ifs <;> simp [polledOf, vibratedOf, List.filterMap_append]

/-- What the gamepad loop does: in every iteration the slots 0, 1, 2, 3 are polled once
each in this order, and slot `i` receives a vibration command exactly when the A bit
is set in the contents of `cntrlState` after its poll, whatever code the poll
returned. -/
theorem pollGamepads_trace (f : FrameInput) (s : ProgramState) :
    polledOf (pollGamepads f XUSER_MAX_COUNT 0 s).trace
      = polledOf s.trace ++ (List.range XUSER_MAX_COUNT).map
          (fun i => (i, (XInputGetState s.xinput f i (f.uninitialised i)).1)) ∧
    vibratedOf (pollGamepads f XUSER_MAX_COUNT 0 s).trace
      = vibratedOf s.trace ++ (List.range XUSER_MAX_COUNT).filter
          (fun i => aButtonAfterPoll s.xinput f i) := by
  have e : pollGamepads f XUSER_MAX_COUNT 0 s
      = pollController f 3 (pollController f 2 (pollController f 1 (pollController f 0 s))) := by
    simp [pollGamepads, XUSER_MAX_COUNT]
  have x0 := (pollController_fields f 0 s).2.2.1
  have x1 := (pollController_fields f 1 (pollController f 0 s)).2.2.1
  have x2 := (pollController_fields f 2 (pollController f 1 (pollController f 0 s))).2.2.1
  rw [x0] at x1
  rw [x1] at x2
  have hrange : List.range XUSER_MAX_COUNT = [0, 1, 2, 3] := by decide
  rw [e, hrange]
  constructor
  · rw [(pollController_polled f 3 _).1, (pollController_polled f 2 _).1,
      (pollController_polled f 1 _).1, (pollController_polled f 0 _).1, x2, x1, x0]
    simp
  · rw [(pollController_polled f 3 _).2, (pollController_polled f 2 _).2,
      (pollController_polled f 1 _).2, (pollController_polled f 0 _).2, x2, x1, x0]
    simp only [List.filter_cons, List.filter_nil, List.append_assoc]
    split_ifs <;> simp

/-- C7, the failing input: slot 0 holds a controller with the A button down, the polls
of slots 1, 2 and 3 return `ERROR_DEVICE_NOT_CONNECTED` and write no state, and
`cntrlState` still holds the set A bit; each slot is polled once in increasing order
and all four receive a vibration command. -/
theorem vibration_without_controller :
    polledOf (WinMain startupWithLibrary [staleFrame]).2.trace
      = [(0, ERROR_SUCCESS), (1, ERROR_DEVICE_NOT_CONNECTED),
         (2, ERROR_DEVICE_NOT_CONNECTED), (3, ERROR_DEVICE_NOT_CONNECTED)] ∧
    vibratedOf (WinMain startupWithLibrary [staleFrame]).2.trace = [0, 1, 2, 3] := by
  decide

/-- C9, evaluated: for every slot, state and vibration both stubs return 0, which is
`ERROR_SUCCESS`; the stub of `XInputGetState` leaves the state as it was, and the test
`XInputGetState(i, &state) != ERROR_SUCCESS` of the loop is false at every slot. -/
theorem stubs_return_success (i : Nat) (st : XINPUT_STATE) (v : XINPUT_VIBRATION) :
    XInputGetStateStub i st = (ERROR_SUCCESS, st) ∧
    XInputSetStateStub i v = ERROR_SUCCESS ∧
    ¬ ((XInputGetStateStub i st).1 ≠ ERROR_SUCCESS) := by
  refine ⟨rfl, rfl, ?_⟩
  intro h
  exact h rfl

/-! ## Animation offsets -/

/-- What the loop does with the animation variables: in every run of `WinMain`,
whatever the startup, the messages, the controller states and the window sizes, every
call of `Win32RenderGradient` receives the offsets `(0, 0)`; `xOffset` and `yOffset`
are never assigned after their initialisation. -/
theorem render_offsets_constant (input : StartupInput) (frames : List FrameInput) :
    ∃ n : Nat, renderOffsetsOf (WinMain input frames).2.trace = List.replicate n (0, 0) := by
  have key : ∀ s : ProgramState, renderOffsetsOf s.trace = [] →
      ∃ n : Nat, renderOffsetsOf (mainLoop 0 0 frames s).trace = List.replicate n (0, 0) := by
    intro s hs
    obtain ⟨n, hn⟩ := mainLoop_renders 0 0 frames s
    exact ⟨n, by rw [hn, hs, List.nil_append]⟩
  have hdebug : ∀ (s : ProgramState) (t : DebugText),
      renderOffsetsOf (s.emit [Action.outputDebugString t]).trace = renderOffsetsOf s.trace := by
    intro s t
    simp [renderOffsetsOf, List.filterMap_append]
  unfold WinMain cleanup
  dsimp only
  split_ifs
  · exact ⟨0, by simp [renderOffsetsOf]⟩
  · exact ⟨0, by simp [renderOffsetsOf]⟩
  · exact key _ (by simp [renderOffsetsOf])
  · rw [hdebug]
    exact key _ (by simp [renderOffsetsOf])

/-- C8, the failing input: in a run of three iterations the offsets passed to
`Win32RenderGradient` are `(0, 0)` each time, so no pair `(dx, dy)` other than
`(0, 0)` takes the offsets of one iteration to those of the next: the variables the
source labels `animation vars` never advance. -/
theorem render_offsets_never_advance :
    renderOffsetsOf (WinMain startupOk [idleFrame, idleFrame, idleFrame]).2.trace
      = [(0, 0), (0, 0), (0, 0)] ∧
    ¬ ∃ dx dy : Int, (dx ≠ 0 ∨ dy ≠ 0) ∧
      (renderOffsetsOf (WinMain startupOk [idleFrame, idleFrame, idleFrame]).2.trace).getD 1 (0, 0)
        = (((renderOffsetsOf
              (WinMain startupOk [idleFrame, idleFrame, idleFrame]).2.trace).getD 0 (0, 0)).1 + dx,
           ((renderOffsetsOf
              (WinMain startupOk [idleFrame, idleFrame, idleFrame]).2.trace).getD 0 (0, 0)).2 + dy) := by
  have h : renderOffsetsOf (WinMain startupOk [idleFrame, idleFrame, idleFrame]).2.trace
      = [(0, 0), (0, 0), (0, 0)] := by decide
  rw [h]
  refine ⟨rfl, ?_⟩
  rintro ⟨dx, dy, hne, heq⟩
  simp only [List.getD_cons_zero, List.getD_cons_succ, Prod.mk.injEq, zero_add] at heq
  omega

end Win32Engine
